import Mathlib

/-!
Verification of the scalar factory layer declared in
`cpp/include/cudf/scalar/scalar_factories.hpp`.

The repository snapshot holds only this header: the declarations of
`make_numeric_scalar`, `make_timestamp_scalar` and `make_string_scalar`
together with their documentation comments and default arguments.  The
implementation files, `cudf/types.hpp` and `scalar.hpp` are absent, so the
bodies of the factories, the type-descriptor set and the scalar record are
modelled from the specification, while everything the header itself fixes
(the public signatures, the default argument values `stream = 0` and
`mr = rmm::mr::get_default_resource()`, and the `TODO: make use of stream
and memory resource` note) is taken from the header.
-/

set_option autoImplicit false

namespace cudf

/-- Modelled from the spec: the closed set of element kinds of
`cudf/types.hpp` (absent from the snapshot) — signed/unsigned integers of
fixed widths, floating point, boolean, several timestamp resolutions, and
UTF-8 string, plus the empty kind. -/
inductive TypeId where
  | EMPTY
  | INT8
  | INT16
  | INT32
  | INT64
  | UINT8
  | UINT16
  | UINT32
  | UINT64
  | FLOAT32
  | FLOAT64
  | BOOL8
  | TIMESTAMP_DAYS
  | TIMESTAMP_SECONDS
  | TIMESTAMP_MILLISECONDS
  | TIMESTAMP_MICROSECONDS
  | TIMESTAMP_NANOSECONDS
  | STRING
  deriving DecidableEq, Repr

/-- Modelled from the spec: the Type Descriptor (`cudf::data_type`), a tag
naming one element kind, immutable once attached to a scalar. -/
structure DataType where
  id : TypeId
  deriving DecidableEq, Repr

/-- Modelled from the spec: legality predicate of the numeric factory —
integers of fixed widths, floating point and boolean. -/
def is_numeric (t : DataType) : Bool :=
  match t.id with
  | TypeId.INT8 | TypeId.INT16 | TypeId.INT32 | TypeId.INT64 => true
  | TypeId.UINT8 | TypeId.UINT16 | TypeId.UINT32 | TypeId.UINT64 => true
  | TypeId.FLOAT32 | TypeId.FLOAT64 | TypeId.BOOL8 => true
  | _ => false

/-- Modelled from the spec: legality predicate of the timestamp factory —
the timestamp-resolution kinds. -/
def is_timestamp (t : DataType) : Bool :=
  match t.id with
  | TypeId.TIMESTAMP_DAYS | TypeId.TIMESTAMP_SECONDS => true
  | TypeId.TIMESTAMP_MILLISECONDS => true
  | TypeId.TIMESTAMP_MICROSECONDS | TypeId.TIMESTAMP_NANOSECONDS => true
  | _ => false

/-- Modelled from the spec: the fixed byte width of each fixed-width kind
(`cudf::size_of`); variable-length and empty kinds report 0. -/
def size_of (t : DataType) : Nat :=
  match t.id with
  | TypeId.INT8 | TypeId.UINT8 | TypeId.BOOL8 => 1
  | TypeId.INT16 | TypeId.UINT16 => 2
  | TypeId.INT32 | TypeId.UINT32 | TypeId.FLOAT32 => 4
  | TypeId.INT64 | TypeId.UINT64 | TypeId.FLOAT64 => 8
  | TypeId.TIMESTAMP_DAYS => 4
  | TypeId.TIMESTAMP_SECONDS => 8
  | TypeId.TIMESTAMP_MILLISECONDS => 8
  | TypeId.TIMESTAMP_MICROSECONDS => 8
  | TypeId.TIMESTAMP_NANOSECONDS => 8
  | TypeId.EMPTY => 0
  | TypeId.STRING => 0

/-- The maximum value representable in `cudf::size_type`, the 32-bit signed
length field (header line 78: the total number of char bytes must not
exceed the maximum size of `size_type`). -/
def size_type_max : Nat := 2147483647

/-- The two error conditions of the factory layer: `InvalidArgument`
(`cudf::logic_error` in the header doc comments) and `OutOfMemory`
(`std::bad_alloc` in the header doc comments). -/
inductive FactoryError where
  | InvalidArgument
  | OutOfMemory
  deriving DecidableEq, Repr

/-- Modelled from the spec: a device memory resource
(`rmm::mr::device_memory_resource*`).  `mrId` identifies the resource,
`canAlloc` says whether a request of a given size succeeds, and `garbage`
gives the uninitialized byte a fresh allocation happens to hold at each
offset. -/
structure Allocator where
  mrId : Nat
  canAlloc : Nat → Bool
  garbage : Nat → UInt8

/-- The uninitialized contents a fresh allocation of `n` bytes from `mr`
holds: the factory never writes these bytes for fixed-width scalars. -/
def allocContents (mr : Allocator) (n : Nat) : List UInt8 :=
  (List.range n).map mr.garbage

/-- One allocation request observed at the allocator interface: requested
size, the execution queue it was issued on, the identity of the memory
resource that served it, and whether it succeeded. -/
structure AllocEvent where
  size : Nat
  queue : Nat
  mr : Nat
  ok : Bool
  deriving DecidableEq, Repr

/-- Modelled from the spec: an exclusively-owned contiguous device
allocation (`rmm::device_buffer`). -/
structure DeviceBuffer where
  size : Nat
  bytes : List UInt8
  deriving DecidableEq, Repr

/-- Modelled from the spec: the scalar record of `scalar.hpp` (absent from
the snapshot) — a Type Descriptor fixed at construction, a validity flag
independent of the payload, the recorded element byte length, and the
exclusively owned device payload. -/
structure Scalar where
  type : DataType
  is_valid : Bool
  size : Nat
  data : DeviceBuffer
  deriving DecidableEq, Repr

/-- The process-wide default queue: `cudaStream_t stream = 0` in the header
declarations. -/
def default_stream : Nat := 0

/-- Modelled from the spec: `rmm::mr::get_default_resource()`, the
process-wide default memory resource named by the header's default
arguments; its behavior is external, here a fixed resource of identity 0. -/
def get_default_resource : Allocator :=
  { mrId := 0, canAlloc := fun _ => true, garbage := fun _ => 0 }

/-- Modelled from the spec: the body of `make_numeric_scalar` (declared at
header lines 47-50; its implementation file is absent).  Per spec 4.1: the
Type Descriptor must name a numeric kind, checked before any allocation;
one queue-ordered device allocation sized exactly to the kind's byte width,
left uninitialized; allocation failure surfaces as `OutOfMemory` with no
retry.  The result carries the trace of allocation requests issued. -/
def make_numeric_scalar (type : DataType) (stream : Nat := default_stream)
    (mr : Allocator := get_default_resource) :
    Except FactoryError Scalar × List AllocEvent :=
  if is_numeric type then
    let sz := size_of type
    if mr.canAlloc sz then
      (Except.ok { type := type, is_valid := false, size := sz,
                   data := { size := sz, bytes := allocContents mr sz } },
       [{ size := sz, queue := stream, mr := mr.mrId, ok := true }])
    else
      (Except.error FactoryError.OutOfMemory,
       [{ size := sz, queue := stream, mr := mr.mrId, ok := false }])
  else (Except.error FactoryError.InvalidArgument, [])

/-- Modelled from the spec: the body of `make_timestamp_scalar` (declared
at header lines 71-74; its implementation file is absent).  Identical to
the numeric factory, restricted to timestamp-resolution kinds. -/
def make_timestamp_scalar (type : DataType) (stream : Nat := default_stream)
    (mr : Allocator := get_default_resource) :
    Except FactoryError Scalar × List AllocEvent :=
  if is_timestamp type then
    let sz := size_of type
    if mr.canAlloc sz then
      (Except.ok { type := type, is_valid := false, size := sz,
                   data := { size := sz, bytes := allocContents mr sz } },
       [{ size := sz, queue := stream, mr := mr.mrId, ok := true }])
    else
      (Except.error FactoryError.OutOfMemory,
       [{ size := sz, queue := stream, mr := mr.mrId, ok := false }])
  else (Except.error FactoryError.InvalidArgument, [])

/-- The size of the character-buffer allocation of the string factory: the
byte length, or a minimal one-byte placeholder when the length is zero or
the string is null (spec 4.3 step 3). -/
def string_alloc_size (chars : Option (Nat → UInt8)) (len : Nat) : Nat :=
  match chars with
  | Option.none => 1
  | Option.some _ => max len 1

/-- Modelled from the spec: the string factory on its conceptual input, a
host pointer/length pair where the pointer may be the null sentinel
(spec 4.3 and 6; the implementation file is absent).  `chars` is the host
memory the pointer designates (`none` for the null sentinel), `len` the
claimed byte length.  Steps: reject a length exceeding `size_type_max`
before any allocation; reject a null pointer with nonzero claimed length;
the string is null iff the pointer is the null sentinel; allocate the
character buffer (one-byte placeholder when empty or null), queue-ordered;
copy the `len` input bytes when non-null and non-empty; record validity
and the final byte length on the scalar. -/
def make_string_scalar_from_ptr (chars : Option (Nat → UInt8)) (len : Nat)
    (stream : Nat := default_stream) (mr : Allocator := get_default_resource) :
    Except FactoryError Scalar × List AllocEvent :=
  if size_type_max < len then (Except.error FactoryError.InvalidArgument, [])
  else if chars.isNone && (len != 0) then
    (Except.error FactoryError.InvalidArgument, [])
  else
    let allocSize := string_alloc_size chars len
    if mr.canAlloc allocSize then
      match chars with
      | Option.none =>
        (Except.ok { type := { id := TypeId.STRING }, is_valid := false,
                     size := 0,
                     data := { size := allocSize,
                               bytes := allocContents mr allocSize } },
         [{ size := allocSize, queue := stream, mr := mr.mrId, ok := true }])
      | Option.some f =>
        (Except.ok { type := { id := TypeId.STRING }, is_valid := true,
                     size := len,
                     data := { size := allocSize,
                               bytes := if len = 0 then allocContents mr allocSize
                                        else (List.range len).map f } },
         [{ size := allocSize, queue := stream, mr := mr.mrId, ok := true }])
    else
      (Except.error FactoryError.OutOfMemory,
       [{ size := allocSize, queue := stream, mr := mr.mrId, ok := false }])

/-- The public `make_string_scalar` as declared at header lines 99-102: it
takes `std::string const&`.  A `std::string` always denotes a defined
(possibly empty) byte sequence and its data pointer is never the null
sentinel, so the conceptual factory runs with a present pointer and the
string's length. -/
def make_string_scalar (s : List UInt8) (stream : Nat := default_stream)
    (mr : Allocator := get_default_resource) :
    Except FactoryError Scalar × List AllocEvent :=
  make_string_scalar_from_ptr (Option.some fun i => s.getD i 0) s.length stream mr

/-- Models the current implementation as documented by the header's own
note at lines 24-25, `TODO: make use of stream and memory resource`: the
supplied stream and memory resource are accepted by the signature but not
used; device work is issued on the default stream through the process-wide
default resource. -/
def make_numeric_scalar_todo (type : DataType) (_stream : Nat)
    (_mr : Allocator) : Except FactoryError Scalar × List AllocEvent :=
  make_numeric_scalar type default_stream get_default_resource

/-- A concrete test resource: identity 7, every request succeeds, fresh
allocations hold the byte 37 everywhere. -/
def mrA : Allocator :=
  { mrId := 7, canAlloc := fun _ => true, garbage := fun _ => 37 }

/-- A concrete test resource that refuses every request. -/
def mrFail : Allocator :=
  { mrId := 9, canAlloc := fun _ => false, garbage := fun _ => 0 }

/-- Concrete host memory holding the bytes 65, 66, 67, ... -/
def fA : Nat → UInt8 := fun i => UInt8.ofNat (65 + i)

/-- The scalar built by the string factory from a non-null pointer of
length 0 through `mrA`: a valid empty string over a one-byte placeholder
allocation holding the allocator's fresh byte. -/
def scEmptyA : Scalar :=
  { type := { id := TypeId.STRING }, is_valid := true, size := 0,
    data := { size := 1, bytes := [37] } }

/-- The scalar built by the string factory from the three bytes 65, 66, 67
through `mrA`. -/
def scRoundA : Scalar :=
  { type := { id := TypeId.STRING }, is_valid := true, size := 3,
    data := { size := 3, bytes := [65, 66, 67] } }

/-- The scalar built by the public string factory from the two-byte
sequence 104, 105 through `mrA`. -/
def scHiA : Scalar :=
  { type := { id := TypeId.STRING }, is_valid := true, size := 2,
    data := { size := 2, bytes := [104, 105] } }

/-- Reading back a list through positional default-access over its range
of indices reproduces the list: the copy the string factory performs is
faithful. -/
theorem range_map_getD (l : List UInt8) (d : UInt8) :
    (List.range l.length).map (fun i => l.getD i d) = l := by
  apply List.ext_getElem
  · simp
  · intro i h1 h2
    simp [List.getD_eq_getElem?_getD, List.getElem?_eq_getElem h2]

/-- Claim C2: for every Type Descriptor outside the legal set of a factory
(non-numeric for `make_numeric_scalar`, non-timestamp for
`make_timestamp_scalar`), the call fails with `InvalidArgument` and issues
zero device allocations (the allocation trace is empty). -/
theorem wrong_kind_rejected_without_allocation (t : DataType) (stream : Nat)
    (mr : Allocator) :
    (is_numeric t = false →
      make_numeric_scalar t stream mr =
        (Except.error FactoryError.InvalidArgument, [])) ∧
    (is_timestamp t = false →
      make_timestamp_scalar t stream mr =
        (Except.error FactoryError.InvalidArgument, [])) := by
  constructor <;> intro h <;>
    simp [make_numeric_scalar, make_timestamp_scalar, h]

/-- Witness for C2: the string kind is rejected by the numeric factory and
the INT32 kind by the timestamp factory, each with an empty allocation
trace. -/
theorem wrong_kind_rejected_without_allocation_witness :
    make_numeric_scalar { id := TypeId.STRING } 3 mrA =
      (Except.error FactoryError.InvalidArgument, []) ∧
    make_timestamp_scalar { id := TypeId.INT32 } 3 mrA =
      (Except.error FactoryError.InvalidArgument, []) :=
  ⟨(wrong_kind_rejected_without_allocation { id := TypeId.STRING } 3 mrA).1 rfl,
   (wrong_kind_rejected_without_allocation { id := TypeId.INT32 } 3 mrA).2 rfl⟩

/-- Claim C3: for every Type Descriptor in the legal set of
`make_numeric_scalar` or `make_timestamp_scalar`, the returned scalar's
payload size equals the descriptor's fixed byte width, and the payload
storage is allocated (exactly one allocation event) but left uninitialized
(the payload bytes are exactly the allocator's fresh contents — the
factory writes nothing). -/
theorem legal_kind_payload_sized_uninitialized (t : DataType) (stream : Nat)
    (mr : Allocator) :
    (is_numeric t = true → mr.canAlloc (size_of t) = true →
      make_numeric_scalar t stream mr =
        (Except.ok { type := t, is_valid := false, size := size_of t,
                     data := { size := size_of t,
                               bytes := allocContents mr (size_of t) } },
         [{ size := size_of t, queue := stream, mr := mr.mrId, ok := true }])) ∧
    (is_timestamp t = true → mr.canAlloc (size_of t) = true →
      make_timestamp_scalar t stream mr =
        (Except.ok { type := t, is_valid := false, size := size_of t,
                     data := { size := size_of t,
                               bytes := allocContents mr (size_of t) } },
         [{ size := size_of t, queue := stream, mr := mr.mrId, ok := true }])) := by
  constructor <;> intro h1 h2 <;>
    simp [make_numeric_scalar, make_timestamp_scalar, h1, h2]

/-- Witness for C3: INT32 yields a 4-byte payload holding the allocator's
fresh bytes; the seconds timestamp kind yields an 8-byte payload. -/
theorem legal_kind_payload_sized_uninitialized_witness :
    make_numeric_scalar { id := TypeId.INT32 } 3 mrA =
      (Except.ok { type := { id := TypeId.INT32 }, is_valid := false, size := 4,
                   data := { size := 4, bytes := [37, 37, 37, 37] } },
       [{ size := 4, queue := 3, mr := 7, ok := true }]) ∧
    make_timestamp_scalar { id := TypeId.TIMESTAMP_SECONDS } 3 mrA =
      (Except.ok { type := { id := TypeId.TIMESTAMP_SECONDS }, is_valid := false,
                   size := 8,
                   data := { size := 8,
                             bytes := [37, 37, 37, 37, 37, 37, 37, 37] } },
       [{ size := 8, queue := 3, mr := 7, ok := true }]) :=
  ⟨(legal_kind_payload_sized_uninitialized { id := TypeId.INT32 } 3 mrA).1 rfl rfl,
   (legal_kind_payload_sized_uninitialized { id := TypeId.TIMESTAMP_SECONDS } 3 mrA).2 rfl rfl⟩

/-- Claim C9: a factory call that omits the queue and allocator arguments
uses the process-wide default queue and default allocator (the header's
default arguments `stream = 0` and `mr = rmm::mr::get_default_resource()`)
and behaves identically to a call passing those defaults explicitly. -/
theorem omitted_arguments_use_defaults (t : DataType) (s : List UInt8) :
    make_numeric_scalar t =
      make_numeric_scalar t default_stream get_default_resource ∧
    make_timestamp_scalar t =
      make_timestamp_scalar t default_stream get_default_resource ∧
    make_string_scalar s =
      make_string_scalar s default_stream get_default_resource :=
  ⟨rfl, rfl, rfl⟩

/-- Claim C8 fails on the code: the header's own note at lines 24-25,
`TODO: make use of stream and memory resource`, records that the supplied
stream and memory resource are not yet used.  A call supplying queue 5 and
the resource of identity 7 issues its one allocation on queue 0 through
the resource of identity 0 — the process-wide defaults, not the
caller-supplied ones. -/
theorem supplied_queue_and_resource_ignored :
    (make_numeric_scalar_todo { id := TypeId.INT32 } 5 mrA).2 =
      [{ size := 4, queue := 0, mr := 0, ok := true }] ∧
    (5 : Nat) ≠ 0 ∧ mrA.mrId ≠ 0 :=
  ⟨rfl, by decide, by decide⟩

/-- Claim C5: a string whose total byte length exceeds the maximum value of
the `size_type` length field is rejected with `InvalidArgument` before any
allocation is attempted (the allocation trace is empty). -/
theorem oversized_length_rejected (chars : Option (Nat → UInt8))
    (len stream : Nat) (mr : Allocator) (h : size_type_max < len) :
    make_string_scalar_from_ptr chars len stream mr =
      (Except.error FactoryError.InvalidArgument, []) := by
  simp [make_string_scalar_from_ptr, h]

/-- Witness for C5: length 2^31 exceeds `size_type_max` and is rejected
without any allocation. -/
theorem oversized_length_rejected_witness :
    size_type_max < 2147483648 ∧
    make_string_scalar_from_ptr (Option.some fA) 2147483648 3 mrA =
      (Except.error FactoryError.InvalidArgument, []) :=
  ⟨by decide,
   oversized_length_rejected (Option.some fA) 2147483648 3 mrA (by decide)⟩

/-- Claim C7: a null pointer with a nonzero claimed length is rejected with
`InvalidArgument`, producing no scalar (in particular not a null scalar)
and no allocation. -/
theorem null_pointer_nonzero_length_rejected (len stream : Nat)
    (mr : Allocator) (h : len ≠ 0) :
    make_string_scalar_from_ptr Option.none len stream mr =
      (Except.error FactoryError.InvalidArgument, []) := by
  by_cases hlen : size_type_max < len
  · simp [make_string_scalar_from_ptr, hlen]
  · simp [make_string_scalar_from_ptr, hlen, h]

/-- Witness for C7: a null pointer with claimed length 5 is rejected. -/
theorem null_pointer_nonzero_length_rejected_witness :
    (5 : Nat) ≠ 0 ∧
    make_string_scalar_from_ptr Option.none 5 3 mrA =
      (Except.error FactoryError.InvalidArgument, []) :=
  ⟨by decide, null_pointer_nonzero_length_rejected 5 3 mrA (by decide)⟩

/-- Claim C1: whenever the string factory produces a scalar, the scalar is
null (`is_valid = false`) iff the host pointer is the null sentinel; a
non-null pointer with length 0 gives a valid scalar with zero recorded
length — a state distinct from the null scalar. -/
theorem string_scalar_null_iff_null_pointer (chars : Option (Nat → UInt8))
    (len stream : Nat) (mr : Allocator) (sc : Scalar) (evs : List AllocEvent)
    (h : make_string_scalar_from_ptr chars len stream mr = (Except.ok sc, evs)) :
    (sc.is_valid = false ↔ chars = Option.none) ∧
    (chars.isSome = true → len = 0 → sc.is_valid = true ∧ sc.size = 0) := by
  cases chars with
  | none =>
    have hv : sc.is_valid = false := by
      simp only [make_string_scalar_from_ptr] at h
      split at h
      · simp at h
      · split at h
        · simp at h
        · split at h
          · simp only [Prod.mk.injEq, Except.ok.injEq] at h
            rw [← h.1]
          · simp at h
    exact ⟨by simp [hv], by simp⟩
  | some f =>
    have hmain : sc.is_valid = true ∧ sc.size = len := by
      simp only [make_string_scalar_from_ptr] at h
      split at h
      · simp at h
      · split at h
        · simp at h
        · split at h
          · simp only [Prod.mk.injEq, Except.ok.injEq] at h
            rw [← h.1]
            exact ⟨rfl, rfl⟩
          · simp at h
    exact ⟨by simp [hmain.1], fun _ hlen => ⟨hmain.1, hlen ▸ hmain.2⟩⟩

/-- Witness for C1: a non-null pointer with length 0 yields the valid
empty-string scalar, which is not the null scalar. -/
theorem string_scalar_null_iff_null_pointer_witness :
    make_string_scalar_from_ptr (Option.some fA) 0 3 mrA =
      (Except.ok scEmptyA, [{ size := 1, queue := 3, mr := 7, ok := true }]) ∧
    (scEmptyA.is_valid = false ↔
      (Option.some fA : Option (Nat → UInt8)) = Option.none) ∧
    ((Option.some fA : Option (Nat → UInt8)).isSome = true → 0 = 0 →
      scEmptyA.is_valid = true ∧ scEmptyA.size = 0) :=
  ⟨rfl,
   (string_scalar_null_iff_null_pointer (Option.some fA) 0 3 mrA scEmptyA
     [{ size := 1, queue := 3, mr := 7, ok := true }] rfl).1,
   (string_scalar_null_iff_null_pointer (Option.some fA) 0 3 mrA scEmptyA
     [{ size := 1, queue := 3, mr := 7, ok := true }] rfl).2⟩

/-- Claim C4: whenever the string factory produces a scalar from a non-null
pointer with positive length `len`, the copied character buffer read back
equals the `len` input bytes exactly, and the recorded byte length is
`len`. -/
theorem string_scalar_roundtrip (f : Nat → UInt8) (len stream : Nat)
    (mr : Allocator) (sc : Scalar) (evs : List AllocEvent) (hlen : 0 < len)
    (h : make_string_scalar_from_ptr (Option.some f) len stream mr =
          (Except.ok sc, evs)) :
    sc.data.bytes = (List.range len).map f ∧ sc.size = len := by
  simp only [make_string_scalar_from_ptr] at h
  split at h
  · simp at h
  · split at h
    · simp at h
    · split at h
      · simp only [Prod.mk.injEq, Except.ok.injEq] at h
        rw [← h.1]
        simp [hlen.ne']
      · simp at h

/-- Witness for C4: the three bytes 65, 66, 67 are copied back verbatim,
with recorded length 3. -/
theorem string_scalar_roundtrip_witness :
    (0 : Nat) < 3 ∧
    make_string_scalar_from_ptr (Option.some fA) 3 3 mrA =
      (Except.ok scRoundA, [{ size := 3, queue := 3, mr := 7, ok := true }]) ∧
    scRoundA.data.bytes = [65, 66, 67] ∧ scRoundA.size = 3 :=
  ⟨by decide, rfl,
   string_scalar_roundtrip fA 3 3 mrA scRoundA
     [{ size := 3, queue := 3, mr := 7, ok := true }] (by decide) rfl⟩

/-- Claim C6: for every factory call in which the allocator cannot satisfy
the allocation request, the failure surfaces synchronously as
`OutOfMemory`; the trace shows exactly one failed request (no retry) and no
successful allocation, and no scalar is produced (no partial construction,
no leak). -/
theorem allocation_failure_surfaces_oom (t : DataType)
    (chars : Option (Nat → UInt8)) (len stream : Nat) (mr : Allocator) :
    (is_numeric t = true → mr.canAlloc (size_of t) = false →
      make_numeric_scalar t stream mr =
        (Except.error FactoryError.OutOfMemory,
         [{ size := size_of t, queue := stream, mr := mr.mrId, ok := false }])) ∧
    (is_timestamp t = true → mr.canAlloc (size_of t) = false →
      make_timestamp_scalar t stream mr =
        (Except.error FactoryError.OutOfMemory,
         [{ size := size_of t, queue := stream, mr := mr.mrId, ok := false }])) ∧
    (len ≤ size_type_max → (chars.isNone && (len != 0)) = false →
      mr.canAlloc (string_alloc_size chars len) = false →
      make_string_scalar_from_ptr chars len stream mr =
        (Except.error FactoryError.OutOfMemory,
         [{ size := string_alloc_size chars len, queue := stream,
            mr := mr.mrId, ok := false }])) := by
  refine ⟨fun h1 h2 => ?_, fun h1 h2 => ?_, fun h1 h2 h3 => ?_⟩
  · simp [make_numeric_scalar, h1, h2]
  · simp [make_timestamp_scalar, h1, h2]
  · simp [make_string_scalar_from_ptr, Nat.not_lt.mpr h1, h2, h3]

/-- Witness for C6: a refusing allocator makes all three factories fail
with `OutOfMemory` after exactly one failed request. -/
theorem allocation_failure_surfaces_oom_witness :
    mrFail.canAlloc 4 = false ∧ mrFail.canAlloc 5 = false ∧
    make_numeric_scalar { id := TypeId.INT32 } 3 mrFail =
      (Except.error FactoryError.OutOfMemory,
       [{ size := 4, queue := 3, mr := 9, ok := false }]) ∧
    make_timestamp_scalar { id := TypeId.TIMESTAMP_NANOSECONDS } 3 mrFail =
      (Except.error FactoryError.OutOfMemory,
       [{ size := 8, queue := 3, mr := 9, ok := false }]) ∧
    make_string_scalar_from_ptr (Option.some fA) 5 3 mrFail =
      (Except.error FactoryError.OutOfMemory,
       [{ size := 5, queue := 3, mr := 9, ok := false }]) :=
  ⟨rfl, rfl,
   (allocation_failure_surfaces_oom { id := TypeId.INT32 }
     (Option.some fA) 5 3 mrFail).1 rfl rfl,
   (allocation_failure_surfaces_oom { id := TypeId.TIMESTAMP_NANOSECONDS }
     (Option.some fA) 5 3 mrFail).2.1 rfl rfl,
   (allocation_failure_surfaces_oom { id := TypeId.INT32 }
     (Option.some fA) 5 3 mrFail).2.2 (by decide) rfl rfl⟩

/-- Claim C10: the public `make_string_scalar` takes its value as a
`std::string` by const reference, so every accepted input denotes a
defined (possibly empty) byte sequence and the null sentinel is not
expressible; whenever it produces a scalar, that scalar is valid, its
recorded length is the input's length, and for a nonempty input its buffer
holds exactly the input bytes. -/
theorem public_string_factory_value_defined (s : List UInt8) (stream : Nat)
    (mr : Allocator) (sc : Scalar) (evs : List AllocEvent)
    (h : make_string_scalar s stream mr = (Except.ok sc, evs)) :
    sc.is_valid = true ∧ sc.size = s.length ∧
    (s ≠ [] → sc.data.bytes = s) := by
  simp only [make_string_scalar, make_string_scalar_from_ptr] at h
  split at h
  · simp at h
  · split at h
    · simp at h
    · split at h
      · simp only [Prod.mk.injEq, Except.ok.injEq] at h
        rw [← h.1]
        refine ⟨rfl, rfl, fun hs => ?_⟩
        have hlen : s.length ≠ 0 := by simpa using hs
        simpa [hlen] using range_map_getD s 0
      · simp at h

/-- Witness for C10: the public factory on the bytes 104, 105 yields a
valid scalar of length 2 holding those bytes. -/
theorem public_string_factory_value_defined_witness :
    make_string_scalar [104, 105] 3 mrA =
      (Except.ok scHiA, [{ size := 2, queue := 3, mr := 7, ok := true }]) ∧
    (scHiA.is_valid = true ∧ scHiA.size = 2 ∧
      (([104, 105] : List UInt8) ≠ [] → scHiA.data.bytes = [104, 105])) :=
  ⟨rfl,
   public_string_factory_value_defined [104, 105] 3 mrA scHiA
     [{ size := 2, queue := 3, mr := 7, ok := true }] rfl⟩

end cudf
